import Mathlib

/-!
Verification of `xlsx_csv_to_CLC.py`, a converter from tabular historian
exports (CSV / spreadsheet grids) to the fixed-layout `.clc` historical-data
format.

The grid (the Python `csv_table`, a list of rows of cells) is embedded as
`List (List String)`, matching the CSV branch of the source where every cell
is a string.  The external date parser (`dateutil.parser.parse`) is an
external library, not repository code; the pipeline is parameterised over a
parse function `pdt : String → Int` giving the parsed timestamp in
microseconds since 1970-01-01 00:00:00 (Python `datetime` arithmetic is exact
affine arithmetic on microseconds, so this integer model is faithful).

Out-of-bounds list indexing raises `IndexError` in Python and aborts the
conversion; the embedding uses `getD` defaults, and every theorem about a
successful conversion carries the corresponding in-bounds hypotheses, so the
defaults never fire in any statement proved here.
-/

namespace CLC

/-- The value produced by a successful Python `float(...)` call: a finite
value is kept as the exact rational the accepted literal denotes (IEEE-754
rounding is not modelled; no claim here depends on rounding), and `float`
also accepts the infinities and NaN. -/
inductive PyFloat where
  | finite (q : Rat)
  | inf (neg : Bool)
  | nan
deriving DecidableEq

/-- A cell of an output row.  Python's `create_clc_table` builds rows that mix
strings (banner, tags, timestamps, quality flags), ints (counts, the period,
the -9999 sentinel) and floats (good sample values). -/
inductive Entry where
  | str (s : String)
  | int (n : Int)
  | float (v : PyFloat)
deriving DecidableEq

/-- ASCII letter or digit: the character class `[A-Za-z0-9]` of the source's
`re.sub('[^A-Za-z0-9]+','',·)`. -/
def isAsciiAlnum (c : Char) : Bool :=
  (('A' ≤ c && c ≤ 'Z') || ('a' ≤ c && c ≤ 'z') || ('0' ≤ c && c ≤ '9'))

/-- `re.sub('[^A-Za-z0-9]+','',s)`: deleting every maximal run of characters
outside `[A-Za-z0-9]` is the same as keeping exactly the characters inside it. -/
def sanitizeTag (s : String) : String :=
  ⟨s.data.filter isAsciiAlnum⟩

/-- Core of `re.sub(' +', ' ', s)`: each maximal run of space characters
(only `' '`, not other whitespace) is replaced by a single space; a space
followed by another space is dropped, so only the last space of a run
survives. -/
def collapseChars : List Char → List Char
  | [] => []
  | [c] => [c]
  | c :: d :: rest =>
    if c = ' ' && d = ' ' then collapseChars (d :: rest)
    else c :: collapseChars (d :: rest)

/-- `re.sub(' +', ' ', s)` on strings. -/
def collapseSpaces (s : String) : String :=
  ⟨collapseChars s.data⟩

/-- Cell access `csv_table[r][c]`; Python raises `IndexError` out of bounds,
the embedding defaults to `""` (all theorems keep indices in bounds). -/
def cell (t : List (List String)) (r c : Nat) : String :=
  (t.getD r []).getD c ""

/-- `clc_tags_descriptions(csv_table)`: for each column `idx` in
`1 .. len(csv_table[0]) - 1`, sanitize the tag, collapse spaces in the
description and units, build the `tag~~~tag~~~desc~~~units` metadata line,
and record a warning for a sanitized tag longer than 12 characters and a
warning for a collapsed description longer than 40 characters. -/
def clc_tags_descriptions (t : List (List String)) :
    List String × List String :=
  let idxs := List.range' 1 ((t.getD 0 []).length - 1)
  let list1 := idxs.map (fun idx =>
    let tag := sanitizeTag (cell t 0 idx)
    let desc := collapseSpaces (cell t 1 idx)
    let units := collapseSpaces (cell t 2 idx)
    tag ++ "~~~" ++ tag ++ "~~~" ++ desc ++ "~~~" ++ units)
  let list2 := (idxs.map (fun idx =>
    let tag := sanitizeTag (cell t 0 idx)
    let desc := collapseSpaces (cell t 1 idx)
    (if tag.length > 12 then
      ["line" ++ toString (idx + 8) ++ ": " ++ tag ++ " variable length too long"]
     else []) ++
    (if desc.length > 40 then
      ["line" ++ toString (idx + 8) ++ ": " ++ tag ++ " description length too long"]
     else []))).flatten
  (list1, list2)

/-! ### A model of CPython's `float(str)` string parsing

`float(s)` strips surrounding whitespace, then accepts an optional sign
followed by a (case-insensitive) `inf`, `infinity` or `nan` keyword, or a
decimal literal `digits [. digits] [(e|E) [sign] digits]` with at least one
mantissa digit and with `_` allowed only directly between two digits.
(The CPython transform of non-ASCII decimal digits and spaces to ASCII is
outside this model, which covers ASCII input.) -/

/-- The ASCII whitespace characters `float` strips (`Py_ISSPACE`). -/
def pyWhitespace (c : Char) : Bool :=
  c = ' ' || c = '\t' || c = '\n' || c = '\r' || c = '\x0b' || c = '\x0c'

/-- Strip leading and trailing Python whitespace. -/
def stripPyWs (l : List Char) : List Char :=
  ((l.dropWhile pyWhitespace).reverse.dropWhile pyWhitespace).reverse

/-- Scan a run of decimal digits in which an underscore may stand between two
digits (CPython's `_Py_dg_strtod` underscore rule); returns the digits seen
and the unconsumed rest.  A misplaced underscore is left unconsumed, which
makes the whole parse fail because of leftover input. -/
def digitsU (acc : List Char) : List Char → List Char × List Char
  | [] => (acc, [])
  | c :: rest =>
    if c.isDigit then digitsU (acc ++ [c]) rest
    else if c = '_' && !acc.isEmpty then
      match rest with
      | d :: rest2 =>
        if d.isDigit then digitsU (acc ++ [d]) rest2 else (acc, c :: rest)
      | [] => (acc, [c])
    else (acc, c :: rest)

/-- Numeric value of a list of decimal digit characters. -/
def natOfDigits (l : List Char) : Nat :=
  l.foldl (fun a c => 10 * a + (c.toNat - 48)) 0

/-- The exact rational `±(digits as an integer) · 10^shift` denoted by an
accepted decimal literal. -/
def decValue (neg : Bool) (digits : List Char) (shift : Int) : Rat :=
  let m : Int := (natOfDigits digits : Int)
  let m : Int := if neg then -m else m
  if 0 ≤ shift then Rat.divInt (m * ((10 ^ shift.toNat : Nat) : Int)) 1
  else Rat.divInt m ((10 ^ (-shift).toNat : Nat) : Int)

/-- Exponent part after the `e`/`E`: optional sign, then at least one digit,
reaching the end of the input. -/
def parseExpDigits (r : List Char) : Option Int :=
  let signed :=
    match r with
    | '+' :: r2 => (false, r2)
    | '-' :: r2 => (true, r2)
    | _ => (false, r)
  let scanned := digitsU [] signed.2
  if scanned.1.isEmpty || !scanned.2.isEmpty then none
  else
    some (if signed.1 then -(natOfDigits scanned.1 : Int) else (natOfDigits scanned.1 : Int))

/-- Decimal literal after the sign: `digits [. digits] [(e|E) [sign] digits]`
with at least one mantissa digit, consuming the entire input. -/
def parseDecimal (neg : Bool) (cs : List Char) : Option Rat :=
  let ipScan := digitsU [] cs
  let fpScan :=
    match ipScan.2 with
    | '.' :: r => digitsU [] r
    | _ => ([], ipScan.2)
  if ipScan.1.isEmpty && fpScan.1.isEmpty then none
  else
    let digits := ipScan.1 ++ fpScan.1
    let fracLen : Int := (fpScan.1.length : Int)
    match fpScan.2 with
    | [] => some (decValue neg digits (-fracLen))
    | 'e' :: r3 => (parseExpDigits r3).map (fun e => decValue neg digits (e - fracLen))
    | 'E' :: r3 => (parseExpDigits r3).map (fun e => decValue neg digits (e - fracLen))
    | _ => none

/-- CPython `float(s)` on a string: `None` models `ValueError`. -/
def pyFloatParse (s : String) : Option PyFloat :=
  let cs := stripPyWs s.data
  let signed :=
    match cs with
    | '+' :: r => (false, r)
    | '-' :: r => (true, r)
    | _ => (false, cs)
  let low := signed.2.map Char.toLower
  if low = "inf".data || low = "infinity".data then some (.inf signed.1)
  else if low = "nan".data then some .nan
  else
    match parseDecimal signed.1 signed.2 with
    | some q => some (.finite q)
    | none => none

/-- One cell of a data row in `format_data`: `float(cell)` success appends the
value and status `"G"`; `ValueError` appends the int sentinel `-9999` and
`"B"`. -/
def formatCell (s : String) : List Entry :=
  match pyFloatParse s with
  | some v => [.float v, .str "G"]
  | none => [.int (-9999), .str "B"]

/-- `format_data(csv_table)`: for every row from index 3 on, convert each cell
after the timestamp column, appending value then status. -/
def format_data (t : List (List String)) : List (List Entry) :=
  (t.drop 3).map (fun row => ((row.drop 1).map formatCell).flatten)

/-- `data_section(timestamps, data)`: one output row per timestamp, the
timestamp followed by that row's value/status entries. -/
def data_section (timestamps : List String) (data : List (List Entry)) :
    List (List Entry) :=
  (List.range timestamps.length).map
    (fun i => .str (timestamps.getD i "") :: data.getD i [])

/-! ### Timestamps

A Python `datetime` is modelled as its offset in microseconds from
1970-01-01 00:00:00 (an integer); `datetime` / `timedelta` arithmetic is
exact affine arithmetic on microseconds, so this model is faithful.  A
`timedelta` (the period) is likewise an integer number of microseconds. -/

/-- Proleptic Gregorian civil date (year, month, day) of a day count relative
to 1970-01-01 (standard civil-from-days computation, floor semantics). -/
def civilFromDays (z : Int) : Int × Nat × Nat :=
  let zs : Int := z + 719468
  let era : Int := zs / 146097
  let doe : Nat := (zs - era * 146097).toNat
  let yoe : Nat := (doe - doe / 1460 + doe / 36524 - doe / 146096) / 365
  let doy : Nat := doe - (365 * yoe + yoe / 4 - yoe / 100)
  let mp : Nat := (5 * doy + 2) / 153
  let d : Nat := doy - (153 * mp + 2) / 5 + 1
  let m : Nat := if mp < 10 then mp + 3 else mp - 9
  let y : Int := (yoe : Int) + era * 400 + (if m ≤ 2 then 1 else 0)
  (y, m, d)

/-- Day count and hour/minute/second of a microsecond offset (the `%S` field
drops the microsecond remainder, as `strftime` does). -/
def timeFields (z : Int) : Int × Nat × Nat × Nat :=
  let sec : Int := z / 1000000
  let days : Int := sec / 86400
  let sod : Nat := (sec - days * 86400).toNat
  (days, sod / 3600, sod % 3600 / 60, sod % 60)

/-- One decimal digit as a character. -/
def digitChar (n : Nat) : Char :=
  if n = 0 then '0' else if n = 1 then '1' else if n = 2 then '2'
  else if n = 3 then '3' else if n = 4 then '4' else if n = 5 then '5'
  else if n = 6 then '6' else if n = 7 then '7' else if n = 8 then '8'
  else if n = 9 then '9' else '0'

/-- `%02d`: two zero-padded decimal digits (faithful for `n ≤ 99`, which
covers every `strftime` field written with it). -/
def two (n : Nat) : List Char :=
  [digitChar (n / 10 % 10), digitChar (n % 10)]

/-- `%04d` (CPython's `%Y` on the `datetime` year range `1..9999`): four
zero-padded decimal digits. -/
def four (n : Nat) : List Char :=
  [digitChar (n / 1000 % 10), digitChar (n / 100 % 10),
   digitChar (n / 10 % 10), digitChar (n % 10)]

/-- `datetime.strftime(ts, "%m-%d-%Y %H:%M:%S")` on the microsecond-offset
model of `ts`. -/
def strftimeClc (z : Int) : String :=
  let tf := timeFields z
  let cfd := civilFromDays tf.1
  ⟨two cfd.2.1 ++ '-' :: two cfd.2.2 ++ '-' :: four cfd.1.toNat ++
    ' ' :: two tf.2.1 ++ ':' :: two tf.2.2.1 ++ ':' :: two tf.2.2.2⟩

/-- `determine_period_t0(csv_table, extension)` (CSV branch): parse the
timestamp cells of rows 3 and 4 with the external date parser `pdt`
(`dateutil.parser.parse`, modelled as a parameter giving microseconds), and
return `(period, time_0) = (time_1 - time_0, time_0)`.  No check of any kind
is made on the sign of the period. -/
def determine_period_t0 (pdt : String → Int) (t : List (List String)) :
    Int × Int :=
  let time_0 := pdt (cell t 3 0)
  let time_1 := pdt (cell t 4 0)
  (time_1 - time_0, time_0)

/-- First loop of `convert_to_date`: `datetime_list`, one
`time_0 + ts * period` per data row index `ts` in `0 .. len(csv_table)-3-1`. -/
def datetimeList (t : List (List String)) (period time_0 : Int) : List Int :=
  (List.range (t.length - 3)).map (fun (ts : Nat) => time_0 + (ts : Int) * period)

/-- `convert_to_date(csv_table, period_tup)`: format every generated
datetime with `"%m-%d-%Y %H:%M:%S"`. -/
def convert_to_date (t : List (List String)) (period_tup : Int × Int) :
    List String :=
  (datetimeList t period_tup.1 period_tup.2).map strftimeClc

/-- `get_timestamps(csv_table, extension)`. -/
def get_timestamps (pdt : String → Int) (t : List (List String)) :
    List String :=
  convert_to_date t (determine_period_t0 pdt t)

/-- `int(period.total_seconds())`: whole seconds of the period, truncated
toward zero as Python `int()` does. -/
def periodSeconds (period : Int) : Int :=
  Int.tdiv period 1000000

/-- `header_section(csv_table, tag_list, timestamps, extension)`: the seven
header entries in source order. -/
def header_section (pdt : String → Int) (t : List (List String))
    (tag_list : List String) (timestamps : List String) : List Entry :=
  let period := periodSeconds (determine_period_t0 pdt t).1
  [.str "CSV to CLC File Conversion",
   .str "Developed by D.P. (AMT)",
   .int (tag_list.length : Int),
   .int (tag_list.length : Int),
   .str (timestamps.getD 0 ""),
   .int period,
   .int (timestamps.length : Int)]

/-- The separator row `"="*50`. -/
def sepLine : String := ⟨List.replicate 50 '='⟩

/-- `create_clc_table(file_name, extension)` from the loaded grid: header
rows, separator, tag rows, separator, data rows, separator — and the error
list. -/
def create_clc_table (pdt : String → Int) (t : List (List String)) :
    List (List Entry) × List String :=
  let tags := clc_tags_descriptions t
  let timestamps := get_timestamps pdt t
  let data := format_data t
  let data_s := data_section timestamps data
  let header := header_section pdt t tags.1 timestamps
  (header.map (fun h => [h]) ++ [[.str sepLine]] ++
     tags.1.map (fun s => [Entry.str s]) ++ [[.str sepLine]] ++
     data_s ++ [[.str sepLine]],
   tags.2)

/-- Python `s.split(".")` on the character list: the pieces between dots
(an empty input gives one empty piece, a trailing dot an empty last piece,
exactly as in Python). -/
def splitDots : List Char → List (List Char)
  | [] => [[]]
  | '.' :: rest => [] :: splitDots rest
  | c :: rest =>
    match splitDots rest with
    | [] => [[c]]
    | p :: ps => (c :: p) :: ps

/-- Python `file_name.split(".")` as a list of strings. -/
def pySplitDot (s : String) : List String :=
  (splitDots s.data).map (fun l => ⟨l⟩)

/-- Path derivation and write decision of `write_csv_file(file_name)`:
`clc_str = file_name.split(".")`, data file `clc_str[0] + ".clc"`, error file
`clc_str[0] + "_errors.txt"` written only when the error list is non-empty
(one warning per line).  The grid `t` stands for the contents read from the
file. -/
def write_csv_file (pdt : String → Int) (file_name : String)
    (t : List (List String)) :
    String × List (List Entry) × Option (String × List String) :=
  let clc_str := pySplitDot file_name
  let base := clc_str.headD ""
  let writes := create_clc_table pdt t
  (base ++ ".clc", writes.1,
   if writes.2 = [] then none else some (base ++ "_errors.txt", writes.2))

/-- Follows the spec's words, for comparison with `write_csv_file`: "derive
output paths by replacing the input extension with `.clc`" — the base name is
everything before the last dot. -/
def specReplaceExtension (p : String) : String :=
  String.intercalate "." (pySplitDot p).dropLast ++ ".clc"

/-! ### Helper lemmas -/

lemma formatCell_length (s : String) : (formatCell s).length = 2 := by
  unfold formatCell
  cases pyFloatParse s <;> rfl

lemma flatten_map_formatCell_length (l : List String) :
    ((l.map formatCell).flatten).length = 2 * l.length := by
  induction l with
  | nil => rfl
  | cons a l ih =>
    simp only [List.map_cons, List.flatten_cons, List.length_append,
      formatCell_length, ih, List.length_cons]
    omega

lemma formatCell_of_parse (s : String) (v : PyFloat)
    (h : pyFloatParse s = some v) : formatCell s = [.float v, .str "G"] := by
  unfold formatCell
  rw [h]

lemma formatCell_of_fail (s : String) (h : pyFloatParse s = none) :
    formatCell s = [.int (-9999), .str "B"] := by
  unfold formatCell
  rw [h]

/-! ### Claims -/

/-- C8: tag id sanitization (removing every character that is not an ASCII
letter or digit) is idempotent, and every character of a sanitized id lies in
`[A-Za-z0-9]`. -/
theorem c8_sanitize_idempotent_alnum (s : String) :
    sanitizeTag (sanitizeTag s) = sanitizeTag s ∧
    (sanitizeTag s).data.all isAsciiAlnum = true := by
  constructor
  · show String.mk (List.filter isAsciiAlnum (List.filter isAsciiAlnum s.data)) = _
    rw [List.filter_filter]
    simp [sanitizeTag]
  · simp only [sanitizeTag, List.all_eq_true, List.mem_filter]
    exact fun x hx => hx.2

/-- C10: a sample's quality is Good exactly when the Python `float` parser
accepts the cell; whitespace-surrounded, signed, `nan` and `inf`/`infinity`
forms (any letter case) are all accepted, so a Good sample's value can be
non-finite (NaN or an infinity). -/
theorem c10_good_iff_float_accepts :
    (∀ s : String, (pyFloatParse s).isSome = true ↔
        ∃ v, formatCell s = [.float v, .str "G"]) ∧
    formatCell " 1.5 " = [.float (.finite (Rat.divInt 3 2)), .str "G"] ∧
    formatCell "+2" = [.float (.finite 2), .str "G"] ∧
    formatCell "nan" = [.float .nan, .str "G"] ∧
    formatCell "NaN" = [.float .nan, .str "G"] ∧
    formatCell "inf" = [.float (.inf false), .str "G"] ∧
    formatCell "-Infinity" = [.float (.inf true), .str "G"] ∧
    formatCell "INFINITY" = [.float (.inf false), .str "G"] ∧
    formatCell "" = [.int (-9999), .str "B"] ∧
    formatCell "abc" = [.int (-9999), .str "B"] := by
  refine ⟨fun s => ?_, by decide, by decide, by decide, by decide, by decide,
    by decide, by decide, by decide, by decide⟩
  constructor
  · intro h
    obtain ⟨v, hv⟩ := Option.isSome_iff_exists.mp h
    exact ⟨v, formatCell_of_parse s v hv⟩
  · rintro ⟨v, hv⟩
    unfold formatCell at hv
    cases hp : pyFloatParse s with
    | none => rw [hp] at hv; exact absurd hv (by simp)
    | some w => simp [hp]

lemma getD_map_range {α : Type} (n i : Nat) (f : Nat → α) (d : α) (h : i < n) :
    ((List.range n).map f).getD i d = f i := by
  rw [List.getD_eq_getElem?_getD, List.getElem?_map, List.getElem?_range h]
  rfl

lemma get_timestamps_length (pdt : String → Int) (t : List (List String)) :
    (get_timestamps pdt t).length = t.length - 3 := by
  unfold get_timestamps convert_to_date datetimeList
  rw [List.length_map, List.length_map, List.length_range]

/-- C2: a data cell accepted by `float` yields the sample `(value, "G")`, any
other cell yields exactly `(-9999, "B")`, and the output data line is the
timestamp followed by the value/quality pairs of the row's non-timestamp
cells in column order. -/
theorem c2_data_lines (pdt : String → Int) (t : List (List String)) (i : Nat)
    (h : i + 3 < t.length) :
    (∀ s v, pyFloatParse s = some v → formatCell s = [.float v, .str "G"]) ∧
    (∀ s, pyFloatParse s = none → formatCell s = [.int (-9999), .str "B"]) ∧
    (data_section (get_timestamps pdt t) (format_data t)).getD i [] =
      .str ((get_timestamps pdt t).getD i "") ::
        (((t.getD (i + 3) []).drop 1).map formatCell).flatten := by
  refine ⟨formatCell_of_parse, formatCell_of_fail, ?_⟩
  have hts : (get_timestamps pdt t).length = t.length - 3 :=
    get_timestamps_length pdt t
  have hi : i < (get_timestamps pdt t).length := by omega
  have h3i : 3 + i < t.length := by omega
  unfold data_section
  rw [getD_map_range _ _ _ _ hi]
  congr 1
  have e1 : t.getD (i + 3) [] = t[3 + i] := by
    rw [List.getD_eq_getElem?_getD, show i + 3 = 3 + i by omega,
      List.getElem?_eq_getElem h3i]
    rfl
  rw [e1]
  unfold format_data
  rw [List.getD_eq_getElem?_getD, List.getElem?_map, List.getElem?_drop,
    List.getElem?_eq_getElem h3i]
  rfl

/-- C6: for a grid whose rows all have the column count of row 0, the number
of metadata lines and the number of value/quality pairs in each data line
both equal the column count minus one. -/
theorem c6_counts (t : List (List String))
    (hrect : ∀ row ∈ t, row.length = (t.getD 0 []).length) :
    (clc_tags_descriptions t).1.length = (t.getD 0 []).length - 1 ∧
    ∀ r ∈ format_data t, r.length = 2 * ((t.getD 0 []).length - 1) := by
  constructor
  · simp [clc_tags_descriptions]
  · intro r hr
    unfold format_data at hr
    obtain ⟨row, hrow, hmap⟩ := List.mem_map.mp hr
    have hlen : row.length = (t.getD 0 []).length :=
      hrect row (List.drop_subset 3 t hrow)
    rw [← hmap, flatten_map_formatCell_length, List.length_drop, hlen]

/-- A five-row grid whose single tag column has a 13-character alphanumeric
tag id (the oversize scenario of the spec). -/
def g13 : List (List String) :=
  [["Time", "ABCDEFGHIJKLM"], ["Desc", "Desc"], ["Units", "F"],
   ["t0", "1.0"], ["t1", "2.0"]]

lemma warning_mem (t : List (List String)) (idx : Nat) (w : String)
    (h1 : 1 ≤ idx) (h2 : idx < (t.getD 0 []).length)
    (hw : w ∈
      (if (sanitizeTag (cell t 0 idx)).length > 12 then
        ["line" ++ toString (idx + 8) ++ ": " ++ sanitizeTag (cell t 0 idx) ++
          " variable length too long"]
       else []) ++
      (if (collapseSpaces (cell t 1 idx)).length > 40 then
        ["line" ++ toString (idx + 8) ++ ": " ++ sanitizeTag (cell t 0 idx) ++
          " description length too long"]
       else [])) :
    w ∈ (clc_tags_descriptions t).2 := by
  unfold clc_tags_descriptions
  simp only
  refine List.mem_flatten.mpr ⟨_, List.mem_map.mpr ⟨idx, ?_, rfl⟩, hw⟩
  exact List.mem_range'_1.mpr ⟨h1, by omega⟩

/-- C5: an oversize sanitized tag id (length > 12) yields the warning
`line{idx+8}: {id} variable length too long`, whose line number matches the
metadata line's position in the output file (1-based line `idx+8`, i.e.
0-based row `idx+7`, after 7 header lines and one separator); the metadata
line is still emitted with the full untruncated id and conversion proceeds;
the 13-character scenario grid produces exactly that one warning. -/
theorem c5_oversize_tag_warning (pdt : String → Int) (t : List (List String))
    (idx : Nat) (h1 : 1 ≤ idx) (h2 : idx < (t.getD 0 []).length)
    (hlong : 12 < (sanitizeTag (cell t 0 idx)).length) :
    ("line" ++ toString (idx + 8) ++ ": " ++ sanitizeTag (cell t 0 idx) ++
        " variable length too long") ∈ (clc_tags_descriptions t).2 ∧
    (create_clc_table pdt t).1.getD (idx + 7) [] =
      [.str (sanitizeTag (cell t 0 idx) ++ "~~~" ++ sanitizeTag (cell t 0 idx) ++
        "~~~" ++ collapseSpaces (cell t 1 idx) ++ "~~~" ++
        collapseSpaces (cell t 2 idx))] ∧
    (clc_tags_descriptions g13).2 =
      ["line9: ABCDEFGHIJKLM variable length too long"] ∧
    (clc_tags_descriptions g13).1 =
      ["ABCDEFGHIJKLM~~~ABCDEFGHIJKLM~~~Desc~~~F"] := by
  refine ⟨?_, ?_, by decide, by decide⟩
  · refine warning_mem t idx _ h1 h2 ?_
    rw [if_pos hlong]
    exact List.mem_append.mpr (Or.inl (List.mem_singleton.mpr rfl))
  · unfold create_clc_table
    simp only [List.append_assoc]
    have hh : (header_section pdt t (clc_tags_descriptions t).1
        (get_timestamps pdt t)).length = 7 := rfl
    have hmap7 : ((header_section pdt t (clc_tags_descriptions t).1
        (get_timestamps pdt t)).map (fun h => [h])).length = 7 := by
      rw [List.length_map, hh]
    rw [List.getD_eq_getElem?_getD,
      List.getElem?_append_right (by omega : _ ≤ idx + 7), hmap7]
    have e1 : idx + 7 - 7 = idx := by omega
    rw [e1, List.getElem?_append_right (by simpa using h1 :
      ([[Entry.str sepLine]]).length ≤ idx)]
    have e2 : idx - ([[Entry.str sepLine]]).length = idx - 1 := by simp
    rw [e2]
    have hlt : idx - 1 < ((clc_tags_descriptions t).1.map
        (fun s => [Entry.str s])).length := by
      rw [List.length_map]
      unfold clc_tags_descriptions
      simp only [List.length_map, List.length_range']
      omega
    rw [List.getElem?_append_left hlt, List.getElem?_map]
    unfold clc_tags_descriptions
    simp only [List.getElem?_map]
    rw [List.getElem?_range' 1 1 (by omega : idx - 1 < (t.getD 0 []).length - 1)]
    have e3 : 1 + 1 * (idx - 1) = idx := by omega
    have e4 : 1 + (idx - 1) = idx := by omega
    simp [e3, e4]

/-- C9: an oversize whitespace-collapsed description (length > 40) yields a
warning that embeds the column's sanitized tag id — not the description
text — with the same `idx + 8` line number as the oversize-id warning. -/
theorem c9_description_warning_uses_tag (t : List (List String)) (idx : Nat)
    (h1 : 1 ≤ idx) (h2 : idx < (t.getD 0 []).length)
    (hlong : 40 < (collapseSpaces (cell t 1 idx)).length) :
    ("line" ++ toString (idx + 8) ++ ": " ++ sanitizeTag (cell t 0 idx) ++
        " description length too long") ∈ (clc_tags_descriptions t).2 := by
  refine warning_mem t idx _ h1 h2 ?_
  refine List.mem_append.mpr (Or.inr ?_)
  rw [if_pos hlong]
  exact List.mem_singleton.mpr rfl

/-! ### The generated-timestamp format -/

/-- ASCII decimal digit test. -/
def isDigitChar (c : Char) : Bool := ('0' ≤ c && c ≤ '9')

/-- The output timestamp format `MM-DD-YYYY HH:MM:SS`: 19 characters,
zero-padded two-digit month/day/hour/minute/second and four-digit year at
fixed positions, month between 1 and 12 and hour/minute/second fields valid
on a 24-hour clock. -/
def clcFormatOK (s : String) : Bool :=
  match s.data with
  | [m1, m2, '-', d1, d2, '-', y1, y2, y3, y4, ' ',
     h1, h2, ':', n1, n2, ':', s1, s2] =>
    isDigitChar m1 && isDigitChar m2 && isDigitChar d1 && isDigitChar d2 &&
    isDigitChar y1 && isDigitChar y2 && isDigitChar y3 && isDigitChar y4 &&
    isDigitChar h1 && isDigitChar h2 && isDigitChar n1 && isDigitChar n2 &&
    isDigitChar s1 && isDigitChar s2 &&
    decide (1 ≤ (m1.toNat - 48) * 10 + (m2.toNat - 48)) &&
    decide ((m1.toNat - 48) * 10 + (m2.toNat - 48) ≤ 12) &&
    decide ((h1.toNat - 48) * 10 + (h2.toNat - 48) < 24) &&
    decide ((n1.toNat - 48) * 10 + (n2.toNat - 48) < 60) &&
    decide ((s1.toNat - 48) * 10 + (s2.toNat - 48) < 60)
  | _ => false

/-- `datetime.min` (0001-01-01 00:00:00) in microseconds from 1970-01-01. -/
def pyDatetimeMin : Int := -62135596800000000

/-- `datetime.max` (9999-12-31 23:59:59.999999) in microseconds from
1970-01-01. -/
def pyDatetimeMax : Int := 253402300799999999

lemma isDigitChar_digitChar (n : Nat) : isDigitChar (digitChar n) = true := by
  unfold digitChar
  split_ifs <;> decide

lemma digitChar_toNat (n : Nat) (h : n < 10) : (digitChar n).toNat = 48 + n := by
  interval_cases n <;> decide

lemma timeFields_bounds (z : Int) (hlo : pyDatetimeMin ≤ z)
    (hhi : z ≤ pyDatetimeMax) :
    -719162 ≤ (timeFields z).1 ∧ (timeFields z).1 ≤ 2932896 ∧
    (timeFields z).2.1 < 24 ∧ (timeFields z).2.2.1 < 60 ∧
    (timeFields z).2.2.2 < 60 := by
  simp only [pyDatetimeMin, pyDatetimeMax] at hlo hhi
  unfold timeFields
  simp only
  omega

lemma civilFromDays_bounds (z : Int) (hlo : -719162 ≤ z) (hhi : z ≤ 2932896) :
    1 ≤ (civilFromDays z).1 ∧ (civilFromDays z).1 ≤ 9999 ∧
    1 ≤ (civilFromDays z).2.1 ∧ (civilFromDays z).2.1 ≤ 12 ∧
    1 ≤ (civilFromDays z).2.2 ∧ (civilFromDays z).2.2 ≤ 31 := by
  unfold civilFromDays
  simp only
  split_ifs <;> omega

lemma clcFormatOK_strftime (z : Int) (hlo : pyDatetimeMin ≤ z)
    (hhi : z ≤ pyDatetimeMax) : clcFormatOK (strftimeClc z) = true := by
  obtain ⟨hda, hdb, hh, hn, hs⟩ := timeFields_bounds z hlo hhi
  obtain ⟨hy1, hy2, hm1, hm2, hd1, hd2⟩ :=
    civilFromDays_bounds (timeFields z).1 hda hdb
  unfold strftimeClc
  simp only [two, four, List.cons_append, List.nil_append]
  unfold clcFormatOK
  simp only
  simp only [Bool.and_eq_true, decide_eq_true_eq, isDigitChar_digitChar,
    true_and]
  rw [digitChar_toNat _ (by omega), digitChar_toNat _ (by omega),
    digitChar_toNat _ (by omega), digitChar_toNat _ (by omega),
    digitChar_toNat _ (by omega), digitChar_toNat _ (by omega),
    digitChar_toNat _ (by omega), digitChar_toNat _ (by omega)]
  omega

/-- C3: with the period taken as the difference of the parsed timestamps of
grid rows 4 and 3, the generated datetimes are the pure affine function
`t0 + i·period` of the data-row index, pairwise differences are
`(j-i)·period`, the emitted strings are exactly those datetimes formatted,
and (within the `datetime` range Python can represent) each string has the
`MM-DD-YYYY HH:MM:SS` zero-padded 24-hour four-digit-year shape. -/
theorem c3_timestamps_affine (pdt : String → Int) (t : List (List String))
    (h5 : 5 ≤ t.length)
    (hin : ∀ i : Nat, i < t.length - 3 →
      pyDatetimeMin ≤ (determine_period_t0 pdt t).2 +
          (i : Int) * (determine_period_t0 pdt t).1 ∧
        (determine_period_t0 pdt t).2 +
          (i : Int) * (determine_period_t0 pdt t).1 ≤ pyDatetimeMax) :
    (determine_period_t0 pdt t).1 =
        pdt (cell t 4 0) - pdt (cell t 3 0) ∧
    (datetimeList t (determine_period_t0 pdt t).1
        (determine_period_t0 pdt t).2).length = t.length - 3 ∧
    (∀ i : Nat, i < t.length - 3 →
      (datetimeList t (determine_period_t0 pdt t).1
          (determine_period_t0 pdt t).2).getD i 0 =
        (determine_period_t0 pdt t).2 +
          (i : Int) * (determine_period_t0 pdt t).1) ∧
    (∀ i j : Nat, i < j → j < t.length - 3 →
      (datetimeList t (determine_period_t0 pdt t).1
          (determine_period_t0 pdt t).2).getD j 0 -
        (datetimeList t (determine_period_t0 pdt t).1
          (determine_period_t0 pdt t).2).getD i 0 =
        ((j : Int) - (i : Int)) * (determine_period_t0 pdt t).1) ∧
    (∀ i : Nat, i < t.length - 3 →
      (get_timestamps pdt t).getD i "" =
        strftimeClc ((determine_period_t0 pdt t).2 +
          (i : Int) * (determine_period_t0 pdt t).1) ∧
      clcFormatOK ((get_timestamps pdt t).getD i "") = true) := by
  have hget : ∀ i : Nat, i < t.length - 3 →
      (datetimeList t (determine_period_t0 pdt t).1
          (determine_period_t0 pdt t).2).getD i 0 =
        (determine_period_t0 pdt t).2 +
          (i : Int) * (determine_period_t0 pdt t).1 := by
    intro i hi
    unfold datetimeList
    rw [getD_map_range _ _ _ _ hi]
  refine ⟨rfl, ?_, hget, ?_, ?_⟩
  · unfold datetimeList
    rw [List.length_map, List.length_range]
  · intro i j hij hj
    rw [hget i (by omega), hget j hj]
    ring
  · intro i hi
    have hstr : (get_timestamps pdt t).getD i "" =
        strftimeClc ((determine_period_t0 pdt t).2 +
          (i : Int) * (determine_period_t0 pdt t).1) := by
      unfold get_timestamps convert_to_date
      rw [List.getD_eq_getElem?_getD, List.getElem?_map]
      unfold datetimeList
      rw [List.getElem?_map, List.getElem?_range hi]
      rfl
    exact ⟨hstr, by
      rw [hstr]
      exact clcFormatOK_strftime _ (hin i hi).1 (hin i hi).2⟩

/-- C1: a successfully converted grid produces exactly the ordered line
sequence: 7 header lines (conversion banner, attribution, tag count, tag
count repeated, first formatted timestamp, period in whole seconds, sample
count), a 50-`=` separator, one metadata line per non-timestamp column, a
separator, one line per data row, and a final separator. -/
theorem c1_output_layout (pdt : String → Int) (t : List (List String))
    (h5 : 5 ≤ t.length)
    (hrect : ∀ row ∈ t, row.length = (t.getD 0 []).length) :
    (create_clc_table pdt t).1 =
      [[Entry.str "CSV to CLC File Conversion"],
       [Entry.str "Developed by D.P. (AMT)"],
       [Entry.int ((clc_tags_descriptions t).1.length : Int)],
       [Entry.int ((clc_tags_descriptions t).1.length : Int)],
       [Entry.str ((get_timestamps pdt t).getD 0 "")],
       [Entry.int (periodSeconds (pdt (cell t 4 0) - pdt (cell t 3 0)))],
       [Entry.int ((get_timestamps pdt t).length : Int)]] ++
      [[Entry.str sepLine]] ++
      (clc_tags_descriptions t).1.map (fun s => [Entry.str s]) ++
      [[Entry.str sepLine]] ++
      data_section (get_timestamps pdt t) (format_data t) ++
      [[Entry.str sepLine]] ∧
    (clc_tags_descriptions t).1.length = (t.getD 0 []).length - 1 ∧
    (data_section (get_timestamps pdt t) (format_data t)).length =
      t.length - 3 ∧
    (get_timestamps pdt t).length = t.length - 3 ∧
    sepLine.length = 50 ∧ (∀ c ∈ sepLine.data, c = '=') := by
  refine ⟨rfl, by simp [clc_tags_descriptions], ?_,
    get_timestamps_length pdt t, by decide, by decide⟩
  unfold data_section
  rw [List.length_map, List.length_range, get_timestamps_length]

/-- A five-row grid whose second data-row timestamp (row 4) precedes the
first (row 3), so the inferred sampling period is negative. -/
def negGrid : List (List String) :=
  [["Time", "TAG1"], ["Desc", "Temperature"], ["Units", "F"],
   ["01-02-2020 00:00:00", "10.0"], ["01-01-2020 00:00:00", "11.0"]]

/-- A concrete stand-in for the external date parser, mapping the two
timestamp strings of `negGrid` to their microsecond offsets. -/
def pdtDemo : String → Int := fun s =>
  if s = "01-02-2020 00:00:00" then 1577923200000000
  else if s = "01-01-2020 00:00:00" then 1577836800000000
  else 0

/-- C4 names behavior the source does not have: `determine_period_t0`
contains no sign check, so at `negGrid` the inferred period is negative and
yet the conversion still builds the full 13-line document, derives the
`.clc` path and writes no diagnostics — a reversed timestamp series is
silently emitted instead of a `TimestampError`. -/
theorem c4_negative_period_not_rejected :
    (determine_period_t0 pdtDemo negGrid).1 < 0 ∧
    get_timestamps pdtDemo negGrid =
      ["01-02-2020 00:00:00", "01-01-2020 00:00:00"] ∧
    (write_csv_file pdtDemo "neg.csv" negGrid).2.1.length = 13 ∧
    (write_csv_file pdtDemo "neg.csv" negGrid).1 = "neg.clc" ∧
    (write_csv_file pdtDemo "neg.csv" negGrid).2.2 = none := by decide

/-- C7 as stated is false on the code: the source splits the input path at
every dot and keeps `split(".")[0]`, so a path whose base name itself
contains a dot is truncated at the FIRST dot instead of having its extension
replaced. -/
theorem c7_counterexample_first_dot :
    (write_csv_file pdtDemo "data.v2.csv" negGrid).1 = "data.clc" ∧
    specReplaceExtension "data.v2.csv" = "data.v2.clc" ∧
    (write_csv_file pdtDemo "data.v2.csv" negGrid).1 ≠
      specReplaceExtension "data.v2.csv" := by decide

/-- C7 (amended): for an input path containing exactly one dot, the derived
data path equals the path with its extension replaced by `.clc` (in general
the code truncates at the first dot); the diagnostics path appends
`_errors.txt` to the same base name, and the diagnostics file is written iff
the warning list is non-empty, with exactly the warning strings as its
lines. -/
theorem c7_output_paths (pdt : String → Int) (file_name : String)
    (t : List (List String)) (h : (pySplitDot file_name).length = 2) :
    (write_csv_file pdt file_name t).1 = specReplaceExtension file_name ∧
    ((write_csv_file pdt file_name t).2.2 = none ↔
      (create_clc_table pdt t).2 = []) ∧
    (∀ p ln, (write_csv_file pdt file_name t).2.2 = some (p, ln) →
      p = (pySplitDot file_name).headD "" ++ "_errors.txt" ∧
      ln = (create_clc_table pdt t).2) := by
  obtain ⟨a, b, hab⟩ := List.length_eq_two.mp h
  unfold write_csv_file specReplaceExtension
  rw [hab]
  simp only [List.headD_cons, List.dropLast_cons₂, List.dropLast_single]
  refine ⟨?_, ?_, ?_⟩
  · show a ++ ".clc" = String.intercalate "." [a] ++ ".clc"
    rfl
  · split_ifs with he
    · simp [he]
    · simp [he]
  · intro p ln
    split_ifs with he
    · intro hcon
      exact absurd hcon (by simp)
    · intro hcon
      have h2 := Option.some.inj hcon
      exact ⟨(congrArg Prod.fst h2).symm, (congrArg Prod.snd h2).symm⟩

/-- A five-row grid whose single tag column has a 41-character description
(one character over the 40 limit). -/
def g41 : List (List String) :=
  [["Time", "TAG2"],
   ["Desc", "AAAAAAAAAAAAAAAAAAAAAAAAAAAAAAAAAAAAAAAAA"],
   ["Units", "F"], ["t0", "1.0"], ["t1", "2.0"]]

theorem c1_output_layout_witness :
    5 ≤ negGrid.length ∧
    (∀ row ∈ negGrid, row.length = (negGrid.getD 0 []).length) ∧
    ((create_clc_table pdtDemo negGrid).1 =
      [[Entry.str "CSV to CLC File Conversion"],
       [Entry.str "Developed by D.P. (AMT)"],
       [Entry.int ((clc_tags_descriptions negGrid).1.length : Int)],
       [Entry.int ((clc_tags_descriptions negGrid).1.length : Int)],
       [Entry.str ((get_timestamps pdtDemo negGrid).getD 0 "")],
       [Entry.int (periodSeconds
         (pdtDemo (cell negGrid 4 0) - pdtDemo (cell negGrid 3 0)))],
       [Entry.int ((get_timestamps pdtDemo negGrid).length : Int)]] ++
      [[Entry.str sepLine]] ++
      (clc_tags_descriptions negGrid).1.map (fun s => [Entry.str s]) ++
      [[Entry.str sepLine]] ++
      data_section (get_timestamps pdtDemo negGrid) (format_data negGrid) ++
      [[Entry.str sepLine]] ∧
    (clc_tags_descriptions negGrid).1.length =
      (negGrid.getD 0 []).length - 1 ∧
    (data_section (get_timestamps pdtDemo negGrid)
      (format_data negGrid)).length = negGrid.length - 3 ∧
    (get_timestamps pdtDemo negGrid).length = negGrid.length - 3 ∧
    sepLine.length = 50 ∧ (∀ c ∈ sepLine.data, c = '=')) :=
  ⟨by decide, by decide,
    c1_output_layout pdtDemo negGrid (by decide) (by decide)⟩

theorem c2_data_lines_witness :
    0 + 3 < negGrid.length ∧
    ((∀ s v, pyFloatParse s = some v → formatCell s = [.float v, .str "G"]) ∧
    (∀ s, pyFloatParse s = none → formatCell s = [.int (-9999), .str "B"]) ∧
    (data_section (get_timestamps pdtDemo negGrid)
        (format_data negGrid)).getD 0 [] =
      .str ((get_timestamps pdtDemo negGrid).getD 0 "") ::
        (((negGrid.getD (0 + 3) []).drop 1).map formatCell).flatten) :=
  ⟨by decide, c2_data_lines pdtDemo negGrid 0 (by decide)⟩

theorem c3_timestamps_affine_witness :
    (5 ≤ negGrid.length ∧
      (∀ i : Nat, i < negGrid.length - 3 →
        pyDatetimeMin ≤ (determine_period_t0 pdtDemo negGrid).2 +
            (i : Int) * (determine_period_t0 pdtDemo negGrid).1 ∧
          (determine_period_t0 pdtDemo negGrid).2 +
            (i : Int) * (determine_period_t0 pdtDemo negGrid).1 ≤
              pyDatetimeMax)) ∧
    ((determine_period_t0 pdtDemo negGrid).1 =
        pdtDemo (cell negGrid 4 0) - pdtDemo (cell negGrid 3 0) ∧
    (datetimeList negGrid (determine_period_t0 pdtDemo negGrid).1
        (determine_period_t0 pdtDemo negGrid).2).length =
      negGrid.length - 3 ∧
    (∀ i : Nat, i < negGrid.length - 3 →
      (datetimeList negGrid (determine_period_t0 pdtDemo negGrid).1
          (determine_period_t0 pdtDemo negGrid).2).getD i 0 =
        (determine_period_t0 pdtDemo negGrid).2 +
          (i : Int) * (determine_period_t0 pdtDemo negGrid).1) ∧
    (∀ i j : Nat, i < j → j < negGrid.length - 3 →
      (datetimeList negGrid (determine_period_t0 pdtDemo negGrid).1
          (determine_period_t0 pdtDemo negGrid).2).getD j 0 -
        (datetimeList negGrid (determine_period_t0 pdtDemo negGrid).1
          (determine_period_t0 pdtDemo negGrid).2).getD i 0 =
        ((j : Int) - (i : Int)) * (determine_period_t0 pdtDemo negGrid).1) ∧
    (∀ i : Nat, i < negGrid.length - 3 →
      (get_timestamps pdtDemo negGrid).getD i "" =
        strftimeClc ((determine_period_t0 pdtDemo negGrid).2 +
          (i : Int) * (determine_period_t0 pdtDemo negGrid).1) ∧
      clcFormatOK ((get_timestamps pdtDemo negGrid).getD i "") = true)) :=
  ⟨⟨by decide, by decide⟩,
    c3_timestamps_affine pdtDemo negGrid (by decide) (by decide)⟩

theorem c5_oversize_tag_warning_witness :
    (1 ≤ 1 ∧ 1 < (g13.getD 0 []).length ∧
      12 < (sanitizeTag (cell g13 0 1)).length) ∧
    (("line" ++ toString (1 + 8) ++ ": " ++ sanitizeTag (cell g13 0 1) ++
        " variable length too long") ∈ (clc_tags_descriptions g13).2 ∧
    (create_clc_table pdtDemo g13).1.getD (1 + 7) [] =
      [.str (sanitizeTag (cell g13 0 1) ++ "~~~" ++ sanitizeTag (cell g13 0 1) ++
        "~~~" ++ collapseSpaces (cell g13 1 1) ++ "~~~" ++
        collapseSpaces (cell g13 2 1))] ∧
    (clc_tags_descriptions g13).2 =
      ["line9: ABCDEFGHIJKLM variable length too long"] ∧
    (clc_tags_descriptions g13).1 =
      ["ABCDEFGHIJKLM~~~ABCDEFGHIJKLM~~~Desc~~~F"]) :=
  ⟨⟨by decide, by decide, by decide⟩,
    c5_oversize_tag_warning pdtDemo g13 1 (by decide) (by decide) (by decide)⟩

theorem c6_counts_witness :
    (∀ row ∈ negGrid, row.length = (negGrid.getD 0 []).length) ∧
    ((clc_tags_descriptions negGrid).1.length =
      (negGrid.getD 0 []).length - 1 ∧
    ∀ r ∈ format_data negGrid,
      r.length = 2 * ((negGrid.getD 0 []).length - 1)) :=
  ⟨by decide, c6_counts negGrid (by decide)⟩

theorem c7_output_paths_witness :
    (pySplitDot "data.csv").length = 2 ∧
    ((write_csv_file pdtDemo "data.csv" negGrid).1 =
      specReplaceExtension "data.csv" ∧
    ((write_csv_file pdtDemo "data.csv" negGrid).2.2 = none ↔
      (create_clc_table pdtDemo negGrid).2 = []) ∧
    (∀ p ln,
      (write_csv_file pdtDemo "data.csv" negGrid).2.2 = some (p, ln) →
      p = (pySplitDot "data.csv").headD "" ++ "_errors.txt" ∧
      ln = (create_clc_table pdtDemo negGrid).2)) :=
  ⟨by decide, c7_output_paths pdtDemo "data.csv" negGrid (by decide)⟩

theorem c8_sanitize_idempotent_alnum_witness :
    sanitizeTag (sanitizeTag "A b!2") = sanitizeTag "A b!2" ∧
    (sanitizeTag "A b!2").data.all isAsciiAlnum = true :=
  c8_sanitize_idempotent_alnum "A b!2"

theorem c9_description_warning_uses_tag_witness :
    (1 ≤ 1 ∧ 1 < (g41.getD 0 []).length ∧
      40 < (collapseSpaces (cell g41 1 1)).length) ∧
    ("line" ++ toString (1 + 8) ++ ": " ++ sanitizeTag (cell g41 0 1) ++
        " description length too long") ∈ (clc_tags_descriptions g41).2 :=
  ⟨⟨by decide, by decide, by decide⟩,
    c9_description_warning_uses_tag g41 1 (by decide) (by decide) (by decide)⟩

end CLC
